import Mathlib

/-!
# Valhalla — discovery and generation core, shallow embedding

This file embeds the core of the Valhalla repository (Go) in Lean 4 and
settles the frozen claims about it.  The embedding follows the Go source:

* `internal/models/infrastructure.go` — the canonical data model (only the
  fields the claims touch are carried; omitted fields are never read by the
  embedded functions).
* `internal/generators/generator.go` — `BaseGenerator.GenerateResourceName`
  and the generator option/result records.
* `internal/generators/terraform.go` — `TerraformGenerator.Generate` and its
  VMware renderers.
* `internal/discovery/providers/vmware.go` (two observed versions) —
  `Discover`, `DiscoverVMs`, `vmMatchesFilters` and friends.
* `internal/discovery/engine.go` — `Engine.DiscoverAll`.

Modelling conventions:

* Go strings are Lean `String`s (lists of characters); the only character
  class transformation the code performs, `strings.ToLower`, is modelled on
  the ASCII range (the inputs the claims quantify over are ASCII).
* Go's `map[string]bool` used as a dedup set is modelled by its key list in
  insertion (first-seen) order together with an *enumerator* parameter
  `enum : List String → List String`: Go's `for k := range m` visits the keys
  in an unspecified order, so any permutation of the key list is a permitted
  enumeration.  Theorems that hold for every permitted enumerator quantify
  over `enum` with the permutation hypothesis.
* A Go runtime panic (nil-pointer dereference, index out of range) is
  modelled as `none` of an `Option`; fallible calls return `Except`.
* Calls into the vSphere SDK (`govmomi`) are the network boundary; their
  results are supplied by explicit oracle records.
* File-system writes are recorded as `(path, content)` pairs instead of
  performed.
-/

/-! ## Go string helpers -/

/-- `strings.ReplaceAll s (single char a) (single char b)`: replace every
occurrence of the character `a` by `b`. -/
def goReplaceAllChar (s : String) (a b : Char) : String :=
  ⟨s.data.map fun c => if c = a then b else c⟩

/-- ASCII restriction of Go `unicode.ToLower`, applied per character. -/
def goCharLower (c : Char) : Char :=
  if 'A' ≤ c ∧ c ≤ 'Z' then Char.ofNat (c.toNat + 32) else c

/-- `strings.ToLower` (ASCII range). -/
def goToLower (s : String) : String :=
  ⟨s.data.map goCharLower⟩

/-- Substring test on character lists, used to model `strings.Contains`. -/
def goContainsList (sub : List Char) : List Char → Bool
  | [] => sub.isPrefixOf []
  | c :: t => sub.isPrefixOf (c :: t) || goContainsList sub t

/-- `strings.Contains s sub`. -/
def goContains (s sub : String) : Bool :=
  goContainsList sub.data s.data

/-- `filepath.Join dir p` for the clean relative paths this program builds
(no `..`, no duplicate separators), where it is plain concatenation with a
single separator; `Join "" p = p`. -/
def goJoin (dir p : String) : String :=
  if dir = "" then p else dir ++ "/" ++ p

/-! ## `BaseGenerator.GenerateResourceName` (internal/generators/generator.go)

```go
func (g *BaseGenerator) GenerateResourceName(name string) string {
    resourceName := strings.ReplaceAll(name, " ", "_")
    resourceName = strings.ReplaceAll(resourceName, "-", "_")
    resourceName = strings.ReplaceAll(resourceName, ".", "_")
    resourceName = strings.ToLower(resourceName)
    if len(resourceName) > 0 && (resourceName[0] < 'a' || resourceName[0] > 'z') {
        resourceName = "res_" + resourceName
    }
    return resourceName
}
```
(The Go guard reads the first *byte*; for a multi-byte first character that
byte is ≥ 0xC2 > `'z'`, and the character itself is likewise > `'z'`, so the
character-level guard below decides every input the same way.) -/

def GenerateResourceName (name : String) : String :=
  let r1 := goReplaceAllChar name ' ' '_'
  let r2 := goReplaceAllChar r1 '-' '_'
  let r3 := goReplaceAllChar r2 '.' '_'
  let rl := goToLower r3
  match rl.data with
  | [] => rl
  | c :: _ => if c < 'a' ∨ 'z' < c then "res_" ++ rl else rl

/-! ### Structure of the sanitizer -/

/-- The per-character effect of the three `ReplaceAll` passes followed by
`ToLower`. -/
def sanChar (c : Char) : Char :=
  Char.toLower (if c = ' ' then '_' else if c = '-' then '_' else if c = '.' then '_' else c)

theorem toNat_ofNat_valid (n : Nat) (h : n.isValidChar) : (Char.ofNat n).toNat = n := by
  rw [Char.ofNat, dif_pos h]; rfl

theorem char_eq_of_toNat_eq {c d : Char} (h : c.toNat = d.toNat) : c = d := by
  apply Char.ext
  apply UInt32.eq_of_toBitVec_eq
  exact BitVec.eq_of_toNat_eq h

/-- After `Char.toLower`, the code point is never in the upper-case ASCII
range. -/
theorem toLower_not_upper (c : Char) :
    ¬(65 ≤ (Char.toLower c).toNat ∧ (Char.toLower c).toNat ≤ 90) := by
  rw [Char.toLower]
  by_cases h : 65 ≤ c.toNat ∧ c.toNat ≤ 90
  · rw [if_pos h]
    have hv : (c.toNat + 32).isValidChar := by
      left
      omega
    rw [toNat_ofNat_valid _ hv]
    omega
  · rw [if_neg h]
    exact h

theorem toLower_idem (c : Char) : Char.toLower (Char.toLower c) = Char.toLower c := by
  conv =>
    lhs
    rw [Char.toLower]
  rw [if_neg (toLower_not_upper c)]

/-- `goToLower` agrees with the per-character core lowering. -/
theorem goCharLower_eq_toLower (c : Char) : goCharLower c = Char.toLower c := by
  rw [goCharLower, Char.toLower]
  rcases Decidable.em ('A' ≤ c ∧ c ≤ 'Z') with h | h
  · rw [if_pos h, if_pos]
    exact And.intro h.1 h.2
  · rw [if_neg h, if_neg]
    intro hc
    exact h (And.intro hc.1 hc.2)

/-- `Char.toLower` either fixes its argument or yields a lower-case ASCII
letter. -/
theorem toLower_cases (c : Char) :
    Char.toLower c = c ∨ (97 ≤ (Char.toLower c).toNat ∧ (Char.toLower c).toNat ≤ 122) := by
  rw [Char.toLower]
  by_cases h : 65 ≤ c.toNat ∧ c.toNat ≤ 90
  · right
    rw [if_pos h]
    have hv : (c.toNat + 32).isValidChar := by
      left
      omega
    rw [toNat_ofNat_valid _ hv]
    omega
  · left
    rw [if_neg h]

/-- A character whose code is a lower-case ASCII letter is not a space,
hyphen or dot. -/
theorem lower_range_not_special {x : Char} (h1 : 97 ≤ x.toNat) (h2 : x.toNat ≤ 122) :
    x ≠ ' ' ∧ x ≠ '-' ∧ x ≠ '.' := by
  have hsp : (' ' : Char).toNat = 32 := by decide
  have hhy : ('-' : Char).toNat = 45 := by decide
  have hdo : ('.' : Char).toNat = 46 := by decide
  refine ⟨?_, ?_, ?_⟩ <;>
    · intro he
      have ht := congrArg Char.toNat he
      omega

/-- `sanChar` never produces a space, hyphen or dot. -/
theorem sanChar_not_special (c : Char) :
    sanChar c ≠ ' ' ∧ sanChar c ≠ '-' ∧ sanChar c ≠ '.' := by
  rw [sanChar]
  have hdn : (if c = ' ' then '_' else if c = '-' then '_' else if c = '.' then '_' else c)
      ≠ ' ' ∧
      (if c = ' ' then '_' else if c = '-' then '_' else if c = '.' then '_' else c) ≠ '-' ∧
      (if c = ' ' then '_' else if c = '-' then '_' else if c = '.' then '_' else c) ≠ '.' := by
    by_cases h1 : c = ' '
    · rw [if_pos h1]
      exact ⟨by decide, by decide, by decide⟩
    · rw [if_neg h1]
      by_cases h2 : c = '-'
      · rw [if_pos h2]
        exact ⟨by decide, by decide, by decide⟩
      · rw [if_neg h2]
        by_cases h3 : c = '.'
        · rw [if_pos h3]
          exact ⟨by decide, by decide, by decide⟩
        · rw [if_neg h3]
          exact ⟨h1, h2, h3⟩
  rcases toLower_cases (if c = ' ' then '_' else if c = '-' then '_' else
      if c = '.' then '_' else c) with h | h
  · rw [h]
    exact hdn
  · exact lower_range_not_special h.1 h.2

/-- The sanitizing character map is idempotent. -/
theorem sanChar_idem (c : Char) : sanChar (sanChar c) = sanChar c := by
  have hns := sanChar_not_special c
  conv =>
    lhs
    rw [sanChar]
  rw [if_neg hns.1, if_neg hns.2.1, if_neg hns.2.2, sanChar, toLower_idem]

/-- The sanitizer is the character map `sanChar` followed by the first-letter
guard. -/
theorem GenerateResourceName_eq (s : String) :
    GenerateResourceName s =
      match s.data.map sanChar with
      | [] => (⟨s.data.map sanChar⟩ : String)
      | c :: _ =>
          if c < 'a' ∨ 'z' < c then "res_" ++ (⟨s.data.map sanChar⟩ : String)
          else (⟨s.data.map sanChar⟩ : String) := by
  have hmap : (goToLower (goReplaceAllChar (goReplaceAllChar
      (goReplaceAllChar s ' ' '_') '-' '_') '.' '_')).data = s.data.map sanChar := by
    show ((((s.data.map _).map _).map _).map goCharLower) = _
    rw [List.map_map, List.map_map, List.map_map]
    apply List.map_congr_left
    intro c _
    show goCharLower _ = sanChar c
    rw [goCharLower_eq_toLower, sanChar]
    by_cases h1 : c = ' '
    · simp [h1]
    · by_cases h2 : c = '-'
      · simp [h1, h2]
      · by_cases h3 : c = '.'
        · simp [h1, h2, h3]
        · simp [h1, h2, h3]
  have hstr : goToLower (goReplaceAllChar (goReplaceAllChar
      (goReplaceAllChar s ' ' '_') '-' '_') '.' '_') = (⟨s.data.map sanChar⟩ : String) :=
    congrArg String.mk hmap
  unfold GenerateResourceName
  simp only [hstr]

/-- List-level form of the sanitizer ( `'r'::'e'::'s'::'_'` is the literal
`"res_"` prefix). -/
def grnList (l : List Char) : List Char :=
  match l.map sanChar with
  | [] => l.map sanChar
  | c :: _ =>
      if c < 'a' ∨ 'z' < c then 'r' :: 'e' :: 's' :: '_' :: l.map sanChar
      else l.map sanChar

theorem string_data_append (a b : String) : (a ++ b).data = a.data ++ b.data := rfl

theorem GenerateResourceName_data (s : String) :
    GenerateResourceName s = ⟨grnList s.data⟩ := by
  rw [GenerateResourceName_eq, grnList]
  cases s.data.map sanChar with
  | nil => rfl
  | cons c t =>
      show (if c < 'a' ∨ 'z' < c then "res_" ++ ({ data := c :: t } : String)
          else ({ data := c :: t } : String))
        = ({ data := if c < 'a' ∨ 'z' < c then 'r' :: 'e' :: 's' :: '_' :: c :: t
          else c :: t } : String)
      by_cases hg : c < 'a' ∨ 'z' < c
      · rw [if_pos hg, if_pos hg]
        rfl
      · rw [if_neg hg, if_neg hg]

theorem map_sanChar_image (l : List Char) :
    (l.map sanChar).map sanChar = l.map sanChar := by
  rw [List.map_map]
  apply List.map_congr_left
  intro c _
  exact sanChar_idem c

theorem grnList_idem (l : List Char) : grnList (grnList l) = grnList l := by
  cases hm : l.map sanChar with
  | nil =>
      have h1 : grnList l = [] := by rw [grnList, hm]
      rw [h1]
      rfl
  | cons c t =>
      have himg : (c :: t).map sanChar = c :: t := by
        rw [← hm, map_sanChar_image]
      by_cases hg : c < 'a' ∨ 'z' < c
      · have h1 : grnList l = 'r' :: 'e' :: 's' :: '_' :: c :: t := by
          rw [grnList, hm]
          show (if c < 'a' ∨ 'z' < c then _ else _) = _
          rw [if_pos hg]
        rw [h1]
        have hmap2 : ('r' :: 'e' :: 's' :: '_' :: c :: t).map sanChar
            = 'r' :: 'e' :: 's' :: '_' :: c :: t := by
          show sanChar 'r' :: sanChar 'e' :: sanChar 's' :: sanChar '_' :: (c :: t).map sanChar
              = _
          rw [himg, show sanChar 'r' = 'r' from by decide,
            show sanChar 'e' = 'e' from by decide,
            show sanChar 's' = 's' from by decide,
            show sanChar '_' = '_' from by decide]
        rw [grnList, hmap2]
        show (if ('r' : Char) < 'a' ∨ 'z' < 'r' then _ else _) = _
        rw [if_neg (by decide : ¬(('r' : Char) < 'a' ∨ 'z' < 'r'))]
      · have h1 : grnList l = c :: t := by
          rw [grnList, hm]
          show (if c < 'a' ∨ 'z' < c then _ else _) = _
          rw [if_neg hg]
        rw [h1, grnList, himg]
        show (if c < 'a' ∨ 'z' < c then _ else _) = _
        rw [if_neg hg]

/-- **C7.** The resource-name sanitizer `BaseGenerator.GenerateResourceName`
is idempotent, and on the concrete input `"Web Server-01"` it returns
`"web_server_01"`. -/
theorem generateResourceName_idempotent :
    (∀ x : String, GenerateResourceName (GenerateResourceName x) = GenerateResourceName x) ∧
      GenerateResourceName "Web Server-01" = "web_server_01" := by
  constructor
  · intro x
    rw [GenerateResourceName_data x, GenerateResourceName_data, grnList_idem]
  · decide

/-! ### The sanitizer against the specification text (C8) -/

/-- Single-pass sanitizer skeleton: apply a character map, then the
first-letter guard with the fixed `"res_"` prefix. -/
def sanitizeWith (f : Char → Char) (s : String) : String :=
  match s.data.map f with
  | [] => (⟨s.data.map f⟩ : String)
  | c :: _ =>
      if c < 'a' ∨ 'z' < c then "res_" ++ (⟨s.data.map f⟩ : String)
      else (⟨s.data.map f⟩ : String)

/-- The character replacement exactly as the specification words it:
*every whitespace character*, hyphen and dot become an underscore. -/
def claimChar (c : Char) : Char :=
  Char.toLower (if c.isWhitespace ∨ c = '-' ∨ c = '.' then '_' else c)

/-- The character replacement the code actually performs: only the space
character (U+0020), hyphen and dot become an underscore. -/
def amendedChar (c : Char) : Char :=
  Char.toLower (if c = ' ' ∨ c = '-' ∨ c = '.' then '_' else c)

theorem GenerateResourceName_eq_sanitizeWith (s : String) :
    GenerateResourceName s = sanitizeWith sanChar s := by
  rw [GenerateResourceName_eq, sanitizeWith]

theorem amendedChar_eq_sanChar (c : Char) : amendedChar c = sanChar c := by
  rw [amendedChar, sanChar]
  by_cases h1 : c = ' '
  · rw [if_pos (Or.inl h1), if_pos h1]
  · by_cases h2 : c = '-'
    · rw [if_pos (Or.inr (Or.inl h2)), if_neg h1, if_pos h2]
    · by_cases h3 : c = '.'
      · rw [if_pos (Or.inr (Or.inr h3)), if_neg h1, if_neg h2, if_pos h3]
      · rw [if_neg (by simp [h1, h2, h3]), if_neg h1, if_neg h2, if_neg h3]

/-- **C8 counterexample.** On `"a\tb"` (a tab is a whitespace character but
not a space) the code keeps the tab while the claimed transformation
replaces it: the sanitizer does *not* replace every whitespace character. -/
theorem generateResourceName_whitespace_cex :
    GenerateResourceName "a\tb" ≠ sanitizeWith claimChar "a\tb" ∧
      GenerateResourceName "a\tb" = "a\tb" ∧
      sanitizeWith claimChar "a\tb" = "a_b" := by
  refine ⟨by decide, by decide, by decide⟩

/-- **C8 (amended).** For every input string the sanitizer returns the string
obtained by replacing every *space* character (U+0020) — not every
whitespace character — hyphen and dot with an underscore and lowercasing the
result, prefixed with the fixed literal `"res_"` when the first character of
that result is not a lower-case letter.  The function is pure and
deterministic (it is a mathematical function of its argument). -/
theorem generateResourceName_spec (s : String) :
    GenerateResourceName s = sanitizeWith amendedChar s := by
  rw [GenerateResourceName_eq_sanitizeWith, sanitizeWith, sanitizeWith]
  have hmap : s.data.map amendedChar = s.data.map sanChar := by
    apply List.map_congr_left
    intro c _
    exact amendedChar_eq_sanChar c
  rw [hmap]

/-! ## Canonical data model (internal/models/infrastructure.go)

Only the fields read by the embedded functions are carried; the omitted
fields (timestamps, metadata values, tools info, annotations) are never
consulted by the code under verification.  `Metadata map[string]interface{}`
is modelled by its key list, because the values stored there (counts,
durations) are never read back. -/

structure Disk where
  id : String
  name : String
  size : Int
  type : String
  datastore : String
  path : String
  controller : String
  unit : Int
deriving DecidableEq, Repr

structure NetworkCard where
  id : String
  name : String
  type : String
  network : String
  macAddress : String
  connected : Bool
  startConnect : Bool
deriving DecidableEq, Repr

structure VMConfig where
  template : Bool
  guestID : String
  uuid : String
  instanceUUID : String
  changeVersion : String
deriving DecidableEq, Repr

structure HardwareInfo where
  version : String
  numCPU : Int
  numCoresPerSocket : Int
  memoryMB : Int
  firmware : String
deriving DecidableEq, Repr

structure VirtualMachine where
  id : String
  name : String
  state : String
  powerState : String
  operatingSystem : String
  cpus : Int
  memory : Int
  disks : List Disk
  networkCards : List NetworkCard
  tags : List String
  resourcePool : String
  folder : String
  host : String
  hardware : HardwareInfo
  config : VMConfig
deriving DecidableEq, Repr

structure Network where
  id : String
  name : String
  type : String
deriving DecidableEq, Repr

structure Storage where
  id : String
  name : String
  type : String
  capacity : Int
  freeSpace : Int
  usedSpace : Int
  accessible : Bool
deriving DecidableEq, Repr

structure ResourcePool where
  id : String
  name : String
deriving DecidableEq, Repr

structure Template where
  id : String
  name : String
deriving DecidableEq, Repr

structure Infrastructure where
  provider : String
  server : String
  datacenter : String
  cluster : String
  node : String
  virtualMachines : List VirtualMachine
  networks : List Network
  storage : List Storage
  resourcePools : List ResourcePool
  templates : List Template
  metadataKeys : List String
deriving DecidableEq, Repr

/-! ## Provider filters (internal/discovery/providers/interfaces.go) -/

structure VMDiscoveryFilters where
  datacenter : String
  cluster : String
  host : String
  node : String
  resourcePool : String
  folder : String
  powerState : String
  tags : List String
  names : List String
  includeTemplates : Bool
deriving DecidableEq, Repr

/-- A filter record with no field supplied (Go zero value, with the given
`IncludeTemplates` flag). -/
def emptyFilters (includeTemplates : Bool) : VMDiscoveryFilters :=
  ⟨"", "", "", "", "", "", "", [], [], includeTemplates⟩

/-- A filter record with only `PowerState` supplied. -/
def powerStateOnly (ps : String) : VMDiscoveryFilters :=
  ⟨"", "", "", "", "", "", ps, [], [], false⟩

/-! ## `vmwareProvider.vmMatchesFilters` (first implementation)

```go
func (p *vmwareProvider) vmMatchesFilters(vm models.VirtualMachine, filters VMDiscoveryFilters) bool {
    if filters.PowerState != "" && vm.PowerState != filters.PowerState { return false }
    if len(filters.Names) > 0 {
        nameMatch := false
        for _, name := range filters.Names {
            if strings.Contains(strings.ToLower(vm.Name), strings.ToLower(name)) { nameMatch = true; break }
        }
        if !nameMatch { return false }
    }
    if filters.Host != "" && vm.Host != filters.Host { return false }
    if filters.ResourcePool != "" && vm.ResourcePool != filters.ResourcePool { return false }
    if filters.Folder != "" && vm.Folder != filters.Folder { return false }
    return true
}
```
Note that `filters.Datacenter`, `filters.Cluster` and `filters.Tags` are
never consulted. -/

def vmMatchesFilters (vm : VirtualMachine) (filters : VMDiscoveryFilters) : Bool :=
  if filters.powerState ≠ "" ∧ vm.powerState ≠ filters.powerState then false
  else if filters.names ≠ [] ∧
      ¬(filters.names.any fun name => goContains (goToLower vm.name) (goToLower name)) then false
  else if filters.host ≠ "" ∧ vm.host ≠ filters.host then false
  else if filters.resourcePool ≠ "" ∧ vm.resourcePool ≠ filters.resourcePool then false
  else if filters.folder ≠ "" ∧ vm.folder ≠ filters.folder then false
  else true

/-- The per-VM loop body of `DiscoverVMs` (first implementation), applied to
the VM models converted from the SDK records: templates are skipped unless
requested, then `vmMatchesFilters` decides membership.  (In the source the
`Config != nil` guard is always taken for converted models.) -/
def discoverVMsFilter (vms : List VirtualMachine) (filters : VMDiscoveryFilters) :
    List VirtualMachine :=
  vms.foldl
    (fun acc vm =>
      if vm.config.template ∧ ¬filters.includeTemplates then acc
      else if vmMatchesFilters vm filters then acc ++ [vm]
      else acc)
    []

/-! ### Filter semantics: specification-side predicates -/

/-- The conjunction of independent predicates the code actually implements:
powerState, name substrings (case-insensitive disjunction), host, resource
pool and folder; an unset (empty) field is always true. -/
def filterConj (vm : VirtualMachine) (f : VMDiscoveryFilters) : Bool :=
  (f.powerState == "" || vm.powerState == f.powerState) &&
  (f.names.isEmpty || f.names.any fun name => goContains (goToLower vm.name) (goToLower name)) &&
  (f.host == "" || vm.host == f.host) &&
  (f.resourcePool == "" || vm.resourcePool == f.resourcePool) &&
  (f.folder == "" || vm.folder == f.folder)

/-- The conjunction the claim asserts: additionally a supplied tag list must
match the VM (the weakest reasonable reading — some supplied tag occurs among
the VM's tags; under any reading a VM with no tags fails a non-empty tag
filter).  The claim also lists datacenter and cluster conjuncts, but a
`VirtualMachine` value carries no datacenter or cluster field at all, so no
predicate on the VM can check them; the tags conjunct alone already separates
the claim from the code. -/
def filterConjClaim (vm : VirtualMachine) (f : VMDiscoveryFilters) : Bool :=
  filterConj vm f && (f.tags.isEmpty || f.tags.any fun t => vm.tags.contains t)

theorem vmMatchesFilters_eq_filterConj (vm : VirtualMachine) (f : VMDiscoveryFilters) :
    vmMatchesFilters vm f = filterConj vm f := by
  rw [vmMatchesFilters, filterConj]
  split_ifs with h1 h2 h3 h4 h5 <;>
    (simp_all [List.isEmpty_iff]; try tauto)

/-- The membership predicate `DiscoverVMs` effectively applies: template
exclusion (unless requested) conjoined with the filter match. -/
def keepVM (f : VMDiscoveryFilters) (vm : VirtualMachine) : Bool :=
  (f.includeTemplates || !vm.config.template) && vmMatchesFilters vm f

theorem discoverVMsFilter_foldl (f : VMDiscoveryFilters) (l acc : List VirtualMachine) :
    l.foldl
      (fun acc vm =>
        if vm.config.template ∧ ¬f.includeTemplates then acc
        else if vmMatchesFilters vm f then acc ++ [vm]
        else acc)
      acc
    = acc ++ l.filter (keepVM f) := by
  induction l generalizing acc with
  | nil => simp
  | cons vm t ih =>
      rw [List.foldl_cons, List.filter_cons]
      by_cases h1 : vm.config.template ∧ ¬f.includeTemplates
      · rw [if_pos h1, ih]
        have hp : keepVM f vm = false := by
          rcases h1 with ⟨ht, hi⟩
          simp only [Bool.not_eq_true] at hi
          simp [keepVM, ht, hi]
        simp [hp]
      · rw [if_neg h1]
        have hnt : (f.includeTemplates || !vm.config.template) = true := by
          by_cases ht : vm.config.template
          · have hi : f.includeTemplates = true := by
              by_cases hi : f.includeTemplates
              · exact hi
              · exact absurd ⟨ht, by simp [hi]⟩ h1
            simp [hi]
          · simp [ht]
        by_cases h2 : vmMatchesFilters vm f
        · rw [if_pos h2, ih]
          have hp : keepVM f vm = true := by simp [keepVM, hnt, h2]
          simp [hp]
        · rw [if_neg h2, ih]
          have hp : keepVM f vm = false := by
            simp only [Bool.not_eq_true] at h2
            simp [keepVM, h2]
          simp [hp]

theorem discoverVMsFilter_eq_filter (vms : List VirtualMachine) (f : VMDiscoveryFilters) :
    discoverVMsFilter vms f
      = vms.filter fun vm => (f.includeTemplates || !vm.config.template) && filterConj vm f := by
  rw [discoverVMsFilter, discoverVMsFilter_foldl, List.nil_append]
  apply List.filter_congr
  intro vm _
  rw [keepVM, vmMatchesFilters_eq_filterConj]

/-- `filterConj` against an all-unset filter record is vacuously true. -/
theorem filterConj_empty (vm : VirtualMachine) (b : Bool) :
    filterConj vm (emptyFilters b) = true := rfl

/-- `filterConj` against a powerState-only filter is the powerState test. -/
theorem filterConj_powerStateOnly (vm : VirtualMachine) (ps : String) (hps : ps ≠ "") :
    filterConj vm (powerStateOnly ps) = (vm.powerState == ps) := by
  rw [filterConj]
  show ((ps == "" || vm.powerState == ps) && (true || _) && (true || _) && (true || _)
      && (true || _)) = _
  have h0 : (ps == "") = false := by
    simp [hps]
  rw [h0]
  simp

/-! ### Claim C5/C6 theorems -/

/-- A concrete powered-on, untagged, non-template VM. -/
def vmPlain : VirtualMachine :=
  ⟨"vm-1", "web-01", "poweredOn", "poweredOn", "", 2, 4096, [], [], [], "", "", "",
    ⟨"vmx-19", 2, 1, 4096, "bios"⟩, ⟨false, "otherGuest64", "", "", ""⟩⟩

/-- A concrete powered-on template VM. -/
def vmTemplateOn : VirtualMachine :=
  ⟨"vm-2", "tmpl-01", "poweredOn", "poweredOn", "", 2, 4096, [], [], [], "", "", "",
    ⟨"vmx-19", 2, 1, 4096, "bios"⟩, ⟨true, "otherGuest64", "", "", ""⟩⟩

/-- A filter record supplying only a tag. -/
def tagOnlyFilter : VMDiscoveryFilters :=
  ⟨"", "", "", "", "", "", "", ["prod"], [], false⟩

/-- **C5 counterexample.** A filter that supplies only the tag `"prod"` keeps
a VM with no tags (the code never consults `filters.Tags`), although the
claimed conjunction excludes it; and with only `powerState` set, a powered-on
*template* VM is excluded even though its power state matches, so the result
is not "exactly the VMs whose power state equals that value". -/
theorem discoverVMs_filters_cex :
    discoverVMsFilter [vmPlain] tagOnlyFilter = [vmPlain] ∧
      filterConjClaim vmPlain tagOnlyFilter = false ∧
      discoverVMsFilter [vmTemplateOn] (powerStateOnly "poweredOn") = [] ∧
      vmTemplateOn.powerState = "poweredOn" := by
  refine ⟨by decide, by decide, by decide, by decide⟩

/-- **C5 (amended).** `DiscoverVMs` keeps a VM exactly when it satisfies the
conjunction of the supplied filter fields that the code consults — powerState,
host, resourcePool, folder, and the case-insensitive name-substring
disjunction — with unset fields always true; the supplied datacenter, cluster
and tags fields are ignored.  Additionally a template VM is kept only when
`includeTemplates` is set.  In particular, with only powerState set (to a
non-empty value), the returned list is exactly the non-template VMs whose
power state equals that value. -/
theorem discoverVMs_conjunction (vms : List VirtualMachine) (f : VMDiscoveryFilters) :
    discoverVMsFilter vms f
        = (vms.filter fun vm =>
            (f.includeTemplates || !vm.config.template) && filterConj vm f) ∧
      (∀ ps : String, ps ≠ "" → (∀ vm ∈ vms, vm.config.template = false) →
        discoverVMsFilter vms (powerStateOnly ps)
          = vms.filter fun vm => vm.powerState == ps) := by
  constructor
  · exact discoverVMsFilter_eq_filter vms f
  · intro ps hps hnt
    rw [discoverVMsFilter_eq_filter]
    apply List.filter_congr
    intro vm hvm
    rw [filterConj_powerStateOnly vm ps hps, hnt vm hvm]
    simp

/-- Witness for the amended C5: instantiated at a concrete VM list and
filter, with the powerState clause applied at `"poweredOn"`. -/
theorem discoverVMs_conjunction_witness :
    discoverVMsFilter [vmPlain, vmTemplateOn] (powerStateOnly "poweredOn")
        = ([vmPlain, vmTemplateOn].filter fun vm =>
            ((powerStateOnly "poweredOn").includeTemplates || !vm.config.template) &&
              filterConj vm (powerStateOnly "poweredOn")) ∧
      discoverVMsFilter [vmPlain] (powerStateOnly "poweredOn")
        = [vmPlain].filter fun vm => vm.powerState == "poweredOn" := by
  constructor
  · exact (discoverVMs_conjunction [vmPlain, vmTemplateOn] (powerStateOnly "poweredOn")).1
  · exact (discoverVMs_conjunction [vmPlain] (powerStateOnly "poweredOn")).2
      "poweredOn" (by decide) (by decide)

/-- **C6.** With no other filter fields set, `DiscoverVMs` with
`includeTemplates=false` returns exactly the non-template VMs (N−M of them),
and with `includeTemplates=true` returns all N VMs. -/
theorem discoverVMs_template_exclusion (vms : List VirtualMachine) :
    discoverVMsFilter vms (emptyFilters false)
        = (vms.filter fun vm => !vm.config.template) ∧
      discoverVMsFilter vms (emptyFilters true) = vms ∧
      (discoverVMsFilter vms (emptyFilters false)).length
        = vms.length - (vms.countP fun vm => vm.config.template) ∧
      (discoverVMsFilter vms (emptyFilters true)).length = vms.length := by
  have h1 : discoverVMsFilter vms (emptyFilters false)
      = vms.filter fun vm => !vm.config.template := by
    rw [discoverVMsFilter_eq_filter]
    apply List.filter_congr
    intro vm _
    rw [filterConj_empty]
    simp [emptyFilters]
  have h2 : discoverVMsFilter vms (emptyFilters true) = vms := by
    rw [discoverVMsFilter_eq_filter]
    have : (vms.filter fun vm =>
        ((emptyFilters true).includeTemplates || !vm.config.template)
          && filterConj vm (emptyFilters true)) = vms.filter fun _ => true := by
      apply List.filter_congr
      intro vm _
      rfl
    rw [this, List.filter_true]
  refine ⟨h1, h2, ?_, ?_⟩
  · rw [h1]
    have hc := List.length_eq_countP_add_countP (fun vm => vm.config.template) (l := vms)
    rw [← List.countP_eq_length_filter]
    have he : (vms.countP fun vm => !vm.config.template)
        = vms.countP fun vm => ¬(vm.config.template = true) := by
      apply List.countP_congr
      intro vm _
      simp
    omega
  · rw [h2]

/-! ## VMware provider (internal/discovery/providers/vmware.go)

The provider owns a connection flag and SDK handles (`client`, `finder`);
before a successful `Connect` both pointers are nil.  Calling a method on the
nil `*find.Finder` is a nil-pointer dereference — a runtime panic — modelled
as `none`.  The SDK listing/retrieval results are supplied by a
`VSphereOracle`; each per-type method wraps the SDK failure in its own
message, exactly as the source does. -/

structure VMwareConfig where
  server : String
  username : String
  datacenter : String
  cluster : String
deriving DecidableEq, Repr

structure VMwareProviderState where
  connected : Bool
  hasClient : Bool
  hasFinder : Bool
  config : VMwareConfig
deriving DecidableEq, Repr

/-- `NewVMwareProvider`: only the logger is set; no connection, nil handles. -/
def newVMwareProvider : VMwareProviderState :=
  ⟨false, false, false, ⟨"", "", "", ""⟩⟩

/-- State after a successful `Connect(ctx, cfg)`. -/
def connectedProvider (cfg : VMwareConfig) : VMwareProviderState :=
  ⟨true, true, true, cfg⟩

/-- Results of the vSphere SDK calls (the network boundary): the outcome of
listing-and-converting each resource type. -/
structure VSphereOracle where
  vms : Except String (List VirtualMachine)
  networks : Except String (List Network)
  storage : Except String (List Storage)
  resourcePools : Except String (List ResourcePool)
  templates : Except String (List Template)

/-- `DiscoverVMs` (first implementation): lists the VMs (panics on a nil
finder), then applies template skipping and `vmMatchesFilters`. -/
def discoverVMsCall (st : VMwareProviderState) (o : VSphereOracle)
    (filters : VMDiscoveryFilters) : Option (Except String (List VirtualMachine)) :=
  if st.hasFinder = false then none
  else
    match o.vms with
    | .error e => some (.error ("failed to list VMs: " ++ e))
    | .ok raw => some (.ok (discoverVMsFilter raw filters))

/-- `DiscoverNetworks`. -/
def discoverNetworksCall (st : VMwareProviderState) (o : VSphereOracle) :
    Option (Except String (List Network)) :=
  if st.hasFinder = false then none
  else
    match o.networks with
    | .error e => some (.error ("failed to list networks: " ++ e))
    | .ok ns => some (.ok ns)

/-- `DiscoverStorage`. -/
def discoverStorageCall (st : VMwareProviderState) (o : VSphereOracle) :
    Option (Except String (List Storage)) :=
  if st.hasFinder = false then none
  else
    match o.storage with
    | .error e => some (.error ("failed to list datastores: " ++ e))
    | .ok ds => some (.ok ds)

/-- `DiscoverResourcePools`. -/
def discoverResourcePoolsCall (st : VMwareProviderState) (o : VSphereOracle) :
    Option (Except String (List ResourcePool)) :=
  if st.hasFinder = false then none
  else
    match o.resourcePools with
    | .error e => some (.error ("failed to list resource pools: " ++ e))
    | .ok rps => some (.ok rps)

/-- `DiscoverTemplates`. -/
def discoverTemplatesCall (st : VMwareProviderState) (o : VSphereOracle) :
    Option (Except String (List Template)) :=
  if st.hasFinder = false then none
  else
    match o.templates with
    | .error e => some (.error ("failed to list VMs for template discovery: " ++ e))
    | .ok ts => some (.ok ts)

/-- The filter record `Discover` passes to `DiscoverVMs` (datacenter and
cluster from the connection config; those fields are ignored by
`vmMatchesFilters`). -/
def mkDiscoverFilters (cfg : VMwareConfig) : VMDiscoveryFilters :=
  ⟨cfg.datacenter, cfg.cluster, "", "", "", "", "", [], [], false⟩

/-- `Discover` (first implementation).  Returns the result paired with the
trace of per-type discoveries attempted, in invocation order.  VM, network
and storage failures abort with a wrapped error; resource-pool and template
failures are only logged (the corresponding field keeps its zero value) and
the metadata records just the resource count and duration. -/
def vmwareDiscover (st : VMwareProviderState) (o : VSphereOracle) :
    Option (Except String Infrastructure × List String) :=
  if st.connected = false then some (.error "not connected to vCenter", [])
  else
    match discoverVMsCall st o (mkDiscoverFilters st.config) with
    | none => none
    | some (.error e) => some (.error ("failed to discover VMs: " ++ e), ["vms"])
    | some (.ok vms) =>
      match discoverNetworksCall st o with
      | none => none
      | some (.error e) =>
          some (.error ("failed to discover networks: " ++ e), ["vms", "networks"])
      | some (.ok networks) =>
        match discoverStorageCall st o with
        | none => none
        | some (.error e) =>
            some (.error ("failed to discover storage: " ++ e), ["vms", "networks", "storage"])
        | some (.ok storage) =>
          match discoverResourcePoolsCall st o with
          | none => none
          | some rpRes =>
            match discoverTemplatesCall st o with
            | none => none
            | some tmplRes =>
              some (.ok
                ⟨"vmware", st.config.server, st.config.datacenter, st.config.cluster, "",
                  vms, networks, storage,
                  (match rpRes with | .ok rps => rps | .error _ => []),
                  (match tmplRes with | .ok ts => ts | .error _ => []),
                  ["total_resources", "discovery_duration"]⟩,
                ["vms", "networks", "storage", "resourcePools", "templates"])

/-- `vmMatchesFilters` (second implementation): only powerState and names
are consulted. -/
def vmMatchesFiltersSimple (vm : VirtualMachine) (filters : VMDiscoveryFilters) : Bool :=
  if filters.powerState ≠ "" ∧ vm.powerState ≠ filters.powerState then false
  else if filters.names ≠ [] ∧
      ¬(filters.names.any fun name => goContains (goToLower vm.name) (goToLower name)) then false
  else true

/-- `DiscoverVMs` (second implementation). -/
def discoverVMsSimpleCall (st : VMwareProviderState) (o : VSphereOracle)
    (filters : VMDiscoveryFilters) : Option (Except String (List VirtualMachine)) :=
  if st.hasFinder = false then none
  else
    match o.vms with
    | .error e => some (.error ("failed to list VMs: " ++ e))
    | .ok raw =>
        some (.ok (raw.foldl
          (fun acc vm =>
            if vm.config.template ∧ ¬filters.includeTemplates then acc
            else if vmMatchesFiltersSimple vm filters then acc ++ [vm]
            else acc)
          []))

/-- `Discover` (second implementation): invokes only VMs, Networks, Storage;
every per-type failure is logged and skipped — the call never returns an
error once connected. -/
def vmwareDiscoverSimple (st : VMwareProviderState) (o : VSphereOracle) :
    Option (Except String Infrastructure × List String) :=
  if st.connected = false then some (.error "not connected to vCenter", [])
  else
    match discoverVMsSimpleCall st o (mkDiscoverFilters st.config) with
    | none => none
    | some vmsRes =>
      match discoverNetworksCall st o with
      | none => none
      | some netsRes =>
        match discoverStorageCall st o with
        | none => none
        | some storRes =>
          some (.ok
            ⟨"vmware", st.config.server, st.config.datacenter, st.config.cluster, "",
              (match vmsRes with | .ok vms => vms | .error _ => []),
              (match netsRes with | .ok ns => ns | .error _ => []),
              (match storRes with | .ok ds => ds | .error _ => []),
              [], [],
              ["total_resources", "discovery_duration"]⟩,
            ["vms", "networks", "storage"])

/-- Is an `Except` an error? -/
def isErr {α : Type} : Except String α → Bool
  | .error _ => true
  | .ok _ => false

/-- Is a (possibly panicking) discovery result an error return? -/
def resultIsError : Option (Except String Infrastructure × List String) → Bool
  | some (.error _, _) => true
  | _ => false

/-! ### Claim C4/C9 theorems -/

/-- A connected provider against a concrete vCenter config. -/
def stConnected : VMwareProviderState :=
  connectedProvider ⟨"vc.example.com", "admin", "DC1", "Cluster1"⟩

/-- Oracle: VM listing succeeds, network listing fails. -/
def oracleNetFail : VSphereOracle :=
  ⟨.ok [vmPlain], .error "connection reset", .ok [], .ok [], .ok []⟩

/-- Oracle: the primary three types succeed, resource pools fail. -/
def oracleRpFail : VSphereOracle :=
  ⟨.ok [vmPlain], .ok [], .ok [], .error "permission denied", .ok []⟩

/-- Oracle: everything succeeds and is empty. -/
def oracleAllOk : VSphereOracle :=
  ⟨.ok [], .ok [], .ok [], .ok [], .ok []⟩

/-- **C4 counterexample.** With VM discovery succeeding and network discovery
failing, `Discover` (first implementation) returns an error — so a VM
discovery failure is *not* the only per-type failure that aborts the call. -/
theorem vmwareDiscover_networks_abort_cex :
    isErr oracleNetFail.vms = false ∧
      vmwareDiscover stConnected oracleNetFail
        = some (.error
            "failed to discover networks: failed to list networks: connection reset",
          ["vms", "networks"]) := by
  constructor
  · rfl
  · rfl

/-- **C4 (amended).** Once connected (first implementation): the per-type
discoveries are invoked in the fixed order VMs, Networks, Storage,
ResourcePools, Templates; a failure of VM, network or storage discovery —
not of VM discovery alone — aborts `Discover` with an error; resource-pool
and template failures do not abort (the corresponding lists default to empty)
but are only logged, not recorded in the result metadata, whose keys are
always exactly `total_resources` and `discovery_duration`.  The second
implementation invokes only VMs, Networks, Storage and never aborts once
connected. -/
theorem vmwareDiscover_composition (st : VMwareProviderState) (o : VSphereOracle)
    (hc : st.connected = true) (hf : st.hasFinder = true) :
    (vmwareDiscover st o).isSome = true ∧
      resultIsError (vmwareDiscover st o)
        = (isErr o.vms || isErr o.networks || isErr o.storage) ∧
      (∀ vms networks storage,
        o.vms = .ok vms → o.networks = .ok networks → o.storage = .ok storage →
        vmwareDiscover st o = some (.ok
          ⟨"vmware", st.config.server, st.config.datacenter, st.config.cluster, "",
            discoverVMsFilter vms (mkDiscoverFilters st.config), networks, storage,
            (match o.resourcePools with | .ok rps => rps | .error _ => []),
            (match o.templates with | .ok ts => ts | .error _ => []),
            ["total_resources", "discovery_duration"]⟩,
          ["vms", "networks", "storage", "resourcePools", "templates"])) ∧
      (vmwareDiscoverSimple st o).isSome = true ∧
      resultIsError (vmwareDiscoverSimple st o) = false := by
  refine ⟨?_, ?_, ?_, ?_, ?_⟩
  · cases hv : o.vms <;> cases hn : o.networks <;> cases hs : o.storage <;>
      cases hr : o.resourcePools <;> cases ht : o.templates <;>
      simp [vmwareDiscover, discoverVMsCall, discoverNetworksCall, discoverStorageCall,
        discoverResourcePoolsCall, discoverTemplatesCall, hc, hf, hv, hn, hs, hr, ht]
  · cases hv : o.vms <;> cases hn : o.networks <;> cases hs : o.storage <;>
      cases hr : o.resourcePools <;> cases ht : o.templates <;>
      simp [vmwareDiscover, discoverVMsCall, discoverNetworksCall, discoverStorageCall,
        discoverResourcePoolsCall, discoverTemplatesCall, resultIsError, isErr,
        hc, hf, hv, hn, hs, hr, ht]
  · intro vms networks storage hv hn hs
    cases hr : o.resourcePools <;> cases ht : o.templates <;>
      simp [vmwareDiscover, discoverVMsCall, discoverNetworksCall, discoverStorageCall,
        discoverResourcePoolsCall, discoverTemplatesCall, hc, hf, hv, hn, hs, hr, ht]
  · cases hv : o.vms <;> cases hn : o.networks <;> cases hs : o.storage <;>
      simp [vmwareDiscoverSimple, discoverVMsSimpleCall, discoverNetworksCall,
        discoverStorageCall, hc, hf, hv, hn, hs]
  · cases hv : o.vms <;> cases hn : o.networks <;> cases hs : o.storage <;>
      simp [vmwareDiscoverSimple, discoverVMsSimpleCall, discoverNetworksCall,
        discoverStorageCall, resultIsError, hc, hf, hv, hn, hs]

/-- Witness for the amended C4, at a connected provider whose resource-pool
discovery fails: the call still succeeds and no failure is recorded in the
metadata keys. -/
theorem vmwareDiscover_composition_witness :
    (vmwareDiscover stConnected oracleRpFail).isSome = true ∧
      resultIsError (vmwareDiscover stConnected oracleRpFail) = false := by
  have h := vmwareDiscover_composition stConnected oracleRpFail rfl rfl
  refine ⟨h.1, ?_⟩
  rw [h.2.1]
  rfl

/-- **C9 counterexample.** On a freshly constructed provider (no `Connect`),
`Discover` does return the not-connected error, but `DiscoverVMs`,
`DiscoverNetworks` and `DiscoverStorage` dereference the nil finder — a
panic, not a `NotConnected` error. -/
theorem notConnected_cex :
    vmwareDiscover newVMwareProvider oracleAllOk
        = some (.error "not connected to vCenter", []) ∧
      discoverVMsCall newVMwareProvider oracleAllOk (emptyFilters false) = none ∧
      discoverNetworksCall newVMwareProvider oracleAllOk = none ∧
      discoverStorageCall newVMwareProvider oracleAllOk = none := by
  refine ⟨rfl, rfl, rfl, rfl⟩

/-- **C9 (amended).** Before a successful `Connect` (no connection, nil
finder) only the composite `Discover` guards the connection and returns the
not-connected error; every per-type discovery method performs no connection
check and dereferences the nil finder (a runtime panic) instead of returning
a `NotConnected` error, and no network result is consulted. -/
theorem notConnected_guard (st : VMwareProviderState) (o : VSphereOracle)
    (f : VMDiscoveryFilters) (hc : st.connected = false) (hf : st.hasFinder = false) :
    vmwareDiscover st o = some (.error "not connected to vCenter", []) ∧
      vmwareDiscoverSimple st o = some (.error "not connected to vCenter", []) ∧
      discoverVMsCall st o f = none ∧
      discoverVMsSimpleCall st o f = none ∧
      discoverNetworksCall st o = none ∧
      discoverStorageCall st o = none ∧
      discoverResourcePoolsCall st o = none ∧
      discoverTemplatesCall st o = none := by
  refine ⟨?_, ?_, ?_, ?_, ?_, ?_, ?_, ?_⟩ <;>
    simp [vmwareDiscover, vmwareDiscoverSimple, discoverVMsCall, discoverVMsSimpleCall,
      discoverNetworksCall, discoverStorageCall, discoverResourcePoolsCall,
      discoverTemplatesCall, hc, hf]

/-- Witness for the amended C9 at the freshly constructed provider. -/
theorem notConnected_guard_witness :
    vmwareDiscover newVMwareProvider oracleAllOk
        = some (.error "not connected to vCenter", []) ∧
      vmwareDiscoverSimple newVMwareProvider oracleAllOk
        = some (.error "not connected to vCenter", []) ∧
      discoverVMsCall newVMwareProvider oracleAllOk (emptyFilters false) = none ∧
      discoverVMsSimpleCall newVMwareProvider oracleAllOk (emptyFilters false) = none ∧
      discoverNetworksCall newVMwareProvider oracleAllOk = none ∧
      discoverStorageCall newVMwareProvider oracleAllOk = none ∧
      discoverResourcePoolsCall newVMwareProvider oracleAllOk = none ∧
      discoverTemplatesCall newVMwareProvider oracleAllOk = none :=
  notConnected_guard newVMwareProvider oracleAllOk (emptyFilters false) rfl rfl

/-! ## Discovery engine (internal/discovery/engine.go)

`DiscoverAll` walks the three built-in platforms in a fixed order, gated on a
non-empty server address, accumulating snapshots and errors; it returns an
aggregate error only when there were errors and no snapshots at all,
otherwise the snapshots plus warning-logged errors.  `DiscoverVMware` returns
exactly one snapshot on success (the abstracted outcome `vmwareRes` models
its connect-and-discover result); `DiscoverProxmox` and `DiscoverNutanix`
always return one `status=not_implemented` placeholder snapshot and never
fail. -/

structure ProxmoxConfig where
  server : String
  node : String
deriving DecidableEq, Repr

structure NutanixConfig where
  server : String
  cluster : String
deriving DecidableEq, Repr

structure EngineConfig where
  vmware : VMwareConfig
  proxmox : ProxmoxConfig
  nutanix : NutanixConfig
deriving DecidableEq, Repr

/-- The placeholder snapshot `DiscoverProxmox` builds (metadata carries
`status=not_implemented` and a message). -/
def proxmoxPlaceholder (cfg : ProxmoxConfig) : Infrastructure :=
  ⟨"proxmox", cfg.server, "", "", cfg.node, [], [], [], [], [], ["status", "message"]⟩

/-- The placeholder snapshot `DiscoverNutanix` builds. -/
def nutanixPlaceholder (cfg : NutanixConfig) : Infrastructure :=
  ⟨"nutanix", cfg.server, "", cfg.cluster, "", [], [], [], [], [], ["status", "message"]⟩

/-- `Engine.DiscoverProxmox`: always succeeds with the placeholder. -/
def engineDiscoverProxmox (cfg : ProxmoxConfig) : Except String (List Infrastructure) :=
  .ok [proxmoxPlaceholder cfg]

/-- `Engine.DiscoverNutanix`: always succeeds with the placeholder. -/
def engineDiscoverNutanix (cfg : NutanixConfig) : Except String (List Infrastructure) :=
  .ok [nutanixPlaceholder cfg]

/-- `Engine.DiscoverAll`.  `vmwareRes` abstracts the outcome of
`DiscoverVMware` (connect + discover against the network); the second
component of the result is the list of warning-logged per-platform errors
(logged only on the partial-success path, as in the source). -/
def discoverAll (cfg : EngineConfig) (vmwareRes : Except String (List Infrastructure)) :
    Except String (List Infrastructure) × List String :=
  let s1 : List Infrastructure × List String :=
    if cfg.vmware.server ≠ "" then
      match vmwareRes with
      | .error e => ([], ["VMware discovery failed: " ++ e])
      | .ok results => (results, [])
    else ([], [])
  let s2 : List Infrastructure × List String :=
    if cfg.proxmox.server ≠ "" then
      match engineDiscoverProxmox cfg.proxmox with
      | .error e => (s1.1, s1.2 ++ ["Proxmox discovery failed: " ++ e])
      | .ok results => (s1.1 ++ results, s1.2)
    else s1
  let s3 : List Infrastructure × List String :=
    if cfg.nutanix.server ≠ "" then
      match engineDiscoverNutanix cfg.nutanix with
      | .error e => (s2.1, s2.2 ++ ["Nutanix discovery failed: " ++ e])
      | .ok results => (s2.1 ++ results, s2.2)
    else s2
  if s3.2 ≠ [] ∧ s3.1 = [] then
    (.error ("all provider discoveries failed: " ++ String.intercalate "; " s3.2), [])
  else (.ok s3.1, s3.2)

/-- The platforms `DiscoverAll` considers, in its fixed order. -/
inductive Platform
  | vmware
  | proxmox
  | nutanix
deriving DecidableEq, Repr

/-- The configured platforms (non-empty server address), in order. -/
def configuredPlatforms (cfg : EngineConfig) : List Platform :=
  (if cfg.vmware.server ≠ "" then [Platform.vmware] else []) ++
  (if cfg.proxmox.server ≠ "" then [Platform.proxmox] else []) ++
  (if cfg.nutanix.server ≠ "" then [Platform.nutanix] else [])

/-- The per-platform discovery outcome seen by `DiscoverAll`. -/
def platformOutcome (cfg : EngineConfig)
    (vmwareRes : Except String (List Infrastructure)) :
    Platform → Except String (List Infrastructure)
  | .vmware => vmwareRes
  | .proxmox => engineDiscoverProxmox cfg.proxmox
  | .nutanix => engineDiscoverNutanix cfg.nutanix

/-- The wrapping `DiscoverAll` applies to a failed platform's error. -/
def platformErrMsg : Platform → String → String
  | .vmware, e => "VMware discovery failed: " ++ e
  | .proxmox, e => "Proxmox discovery failed: " ++ e
  | .nutanix, e => "Nutanix discovery failed: " ++ e

/-- **C3.** `DiscoverAll` errors exactly when at least one platform is
configured and every configured platform's discovery failed; otherwise it
returns the successful platforms' snapshots (in platform order, a failed
platform contributing nothing — never removing another platform's snapshot)
together with warning records for the failed platforms. -/
theorem discoverAll_failure_isolation (cfg : EngineConfig)
    (vmwareRes : Except String (List Infrastructure)) :
    (isErr (discoverAll cfg vmwareRes).1 = true ↔
      (configuredPlatforms cfg ≠ [] ∧
        ∀ p ∈ configuredPlatforms cfg, isErr (platformOutcome cfg vmwareRes p) = true)) ∧
      (isErr (discoverAll cfg vmwareRes).1 = false →
        (discoverAll cfg vmwareRes).1
            = .ok (((configuredPlatforms cfg).map
                fun p => match platformOutcome cfg vmwareRes p with
                  | .ok rs => rs
                  | .error _ => []).flatten) ∧
          (discoverAll cfg vmwareRes).2
            = (configuredPlatforms cfg).filterMap
                fun p => match platformOutcome cfg vmwareRes p with
                  | .error e => some (platformErrMsg p e)
                  | .ok _ => none) := by
  by_cases h1 : cfg.vmware.server = "" <;> by_cases h2 : cfg.proxmox.server = "" <;>
    by_cases h3 : cfg.nutanix.server = "" <;> cases hv : vmwareRes <;>
    simp [discoverAll, configuredPlatforms, platformOutcome, platformErrMsg,
      engineDiscoverProxmox, engineDiscoverNutanix, isErr, h1, h2, h3, hv]

/-- A configuration with VMware (platform A) and Proxmox (platform B)
configured. -/
def cfgAB : EngineConfig :=
  ⟨⟨"vc.a.example.com", "admin", "DC1", ""⟩, ⟨"pve.b.example.com", "pve1"⟩, ⟨"", ""⟩⟩

/-- Witness for C3: platform A (VMware) fails with a connection error while
platform B (Proxmox) succeeds — `DiscoverAll` returns B's snapshot and a
non-fatal warning referencing A, not an error. -/
theorem discoverAll_failure_isolation_witness :
    isErr (discoverAll cfgAB (Except.error "connection refused")).1 = false ∧
      (discoverAll cfgAB (Except.error "connection refused")).1
        = .ok [proxmoxPlaceholder cfgAB.proxmox] ∧
      (discoverAll cfgAB (Except.error "connection refused")).2
        = ["VMware discovery failed: connection refused"] := by
  have h := discoverAll_failure_isolation cfgAB (Except.error "connection refused")
  have hok := h.2 (by rfl)
  refine ⟨by rfl, ?_, ?_⟩
  · rw [hok.1]
    rfl
  · rw [hok.2]
    rfl

/-! ## Terraform generator (internal/generators/terraform.go)

The renderer is embedded with its exact output text (every literal brace in
the Go template text is written `\x7b` / `\x7d` here).  Write actions are
recorded as `(path, content)` pairs; `writeFile` also *mutates* each result's
`Path` to `filepath.Join(outputDir, Path)` after writing. -/

structure GenerateOptions where
  outputDir : String
  dryRun : Bool
deriving DecidableEq, Repr

structure GenerateResult where
  path : String
  content : String
  size : Nat
  type : String
  provider : String
  resources : List String
deriving DecidableEq, Repr

/-- Go `%t`. -/
def goBool (b : Bool) : String := if b then "true" else "false"

/-- Go `%d` on a 64-bit integer. -/
def goInt (i : Int) : String := toString i

/-- Go `%d` on a loop index. -/
def goIdx (n : Nat) : String := toString n

/-- `generateVMwareProvider` (constant text). -/
def generateVMwareProvider (_infra : Infrastructure) : String :=
  "terraform \x7b\n  required_providers \x7b\n    vsphere = \x7b\n      source  = \"hashicorp/vsphere\"\n      version = \"~> 2.0\"\n    \x7d\n  \x7d\n  required_version = \">= 1.0\"\n\x7d\n\nprovider \"vsphere\" \x7b\n  user                 = var.vsphere_user\n  password             = var.vsphere_password\n  vsphere_server       = var.vsphere_server\n  allow_unverified_ssl = var.vsphere_insecure\n\x7d\n"

/-- `generateVMwareVariables`. -/
def generateVMwareVariables (infra : Infrastructure) : String :=
  "variable \"vsphere_server\" \x7b\n  description = \"vSphere server address\"\n  type        = string\n  default     = \"" ++ infra.server ++
  "\"\n\x7d\n\nvariable \"vsphere_user\" \x7b\n  description = \"vSphere username\"\n  type        = string\n  sensitive   = true\n\x7d\n\nvariable \"vsphere_password\" \x7b\n  description = \"vSphere password\"\n  type        = string\n  sensitive   = true\n\x7d\n\nvariable \"vsphere_insecure\" \x7b\n  description = \"Allow unverified SSL certificates\"\n  type        = bool\n  default     = true\n\x7d\n\nvariable \"datacenter\" \x7b\n  description = \"vSphere datacenter\"\n  type        = string\n  default     = \"" ++ infra.datacenter ++ "\"\n\x7d\n"

/-- First-seen collection of the non-empty network names referenced by the
VMs' network cards: the key set of the Go `networks` map in insertion
order. -/
def firstSeenNetworks (vms : List VirtualMachine) : List String :=
  vms.foldl
    (fun acc vm =>
      vm.networkCards.foldl
        (fun acc2 nic =>
          if nic.network ≠ "" ∧ ¬acc2.contains nic.network then acc2 ++ [nic.network]
          else acc2)
        acc)
    []

/-- First-seen collection of the non-empty datastore names referenced by the
VMs' disks: the key set of the Go `datastores` map in insertion order. -/
def firstSeenDatastores (vms : List VirtualMachine) : List String :=
  vms.foldl
    (fun acc vm =>
      vm.disks.foldl
        (fun acc2 disk =>
          if disk.datastore ≠ "" ∧ ¬acc2.contains disk.datastore then acc2 ++ [disk.datastore]
          else acc2)
        acc)
    []

inductive DSKind
  | network
  | datastore
deriving DecidableEq, Repr

/-- One emitted `data` block: its sanitized identifier key and the raw
platform name it declares. -/
structure DataSourceDecl where
  kind : DSKind
  key : String
  rawName : String
deriving DecidableEq, Repr

/-- The data-source declarations emitted for a snapshot, given the map
enumeration order `enum` (networks first, then datastores, as in the
source). -/
def dataSourceDecls (infra : Infrastructure) (enum : List String → List String) :
    List DataSourceDecl :=
  ((enum (firstSeenNetworks infra.virtualMachines)).map
    fun n => ⟨DSKind.network, GenerateResourceName n, n⟩) ++
  ((enum (firstSeenDatastores infra.virtualMachines)).map
    fun d => ⟨DSKind.datastore, GenerateResourceName d, d⟩)

/-- The text of one data-source declaration. -/
def renderDataSourceDecl (d : DataSourceDecl) : String :=
  match d.kind with
  | .network =>
      "\ndata \"vsphere_network\" \"" ++ d.key ++ "\" \x7b\n  name          = \"" ++
        d.rawName ++ "\"\n  datacenter_id = data.vsphere_datacenter.dc.id\n\x7d\n"
  | .datastore =>
      "\ndata \"vsphere_datastore\" \"" ++ d.key ++ "\" \x7b\n  name          = \"" ++
        d.rawName ++ "\"\n  datacenter_id = data.vsphere_datacenter.dc.id\n\x7d\n"

/-- `generateVMwareDataSources`. -/
def generateVMwareDataSources (infra : Infrastructure)
    (enum : List String → List String) : String :=
  (if infra.cluster ≠ "" then
      "data \"vsphere_datacenter\" \"dc\" \x7b\n  name = var.datacenter\n\x7d\n" ++
        "\ndata \"vsphere_compute_cluster\" \"cluster\" \x7b\n  name          = \"" ++
        infra.cluster ++ "\"\n  datacenter_id = data.vsphere_datacenter.dc.id\n\x7d\n"
    else "data \"vsphere_datacenter\" \"dc\" \x7b\n  name = var.datacenter\n\x7d\n") ++
  String.join ((dataSourceDecls infra enum).map renderDataSourceDecl)

/-- One network-interface block of a VM resource. -/
def renderNicBlock (nic : NetworkCard) : String :=
  "\n  network_interface \x7b\n    network_id   = data.vsphere_network." ++
    GenerateResourceName nic.network ++ ".id\n    adapter_type = \"" ++ nic.type ++
    "\"\n  \x7d\n"

/-- One disk block of a VM resource (0-based loop index). -/
def renderDiskBlock (i : Nat) (disk : Disk) : String :=
  "\n  disk \x7b\n    label            = \"disk" ++ goIdx i ++
    "\"\n    size             = " ++ goInt disk.size ++
    "\n    thin_provisioned = " ++ goBool (goContains disk.type "thin") ++
    "\n    datastore_id     = data.vsphere_datastore." ++
    GenerateResourceName disk.datastore ++ ".id\n  \x7d\n"

/-- The resource block for one (non-template) VM.  The header indexes
`vm.Disks[0]` without a guard: an empty disk list is an out-of-range panic,
modelled as `none`. -/
def vmBlock (vm : VirtualMachine) : Option String :=
  match vm.disks with
  | [] => none
  | disk0 :: _ =>
      some
        ("resource \"vsphere_virtual_machine\" \"" ++ GenerateResourceName vm.name ++
          "\" \x7b\n  name             = \"" ++ vm.name ++
          "\"\n  resource_pool_id = data.vsphere_compute_cluster.cluster.resource_pool_id\n  datastore_id     = data.vsphere_datastore." ++
          GenerateResourceName disk0.datastore ++
          ".id\n  \n  num_cpus = " ++ goInt vm.cpus ++
          "\n  memory   = " ++ goInt vm.memory ++
          "\n  \n  guest_id = \"" ++ vm.config.guestID ++
          "\"\n  \n  firmware = \"" ++ goToLower vm.hardware.firmware ++ "\"\n" ++
          String.join (vm.networkCards.map renderNicBlock) ++
          String.join (vm.disks.enum.map fun p => renderDiskBlock p.1 p.2) ++
          "\x7d\n")

/-- The per-VM loop of `generateVMwareVMs`: templates are skipped, the first
diskless non-template VM panics. -/
def collectVMBlocks : List VirtualMachine → Option (List String)
  | [] => some []
  | vm :: rest =>
      if vm.config.template then collectVMBlocks rest
      else
        match vmBlock vm with
        | none => none
        | some b =>
            match collectVMBlocks rest with
            | none => none
            | some bs => some (b :: bs)

/-- `generateVMwareVMs` (`strings.Join(vmConfigs, "\n")`). -/
def generateVMwareVMs (vms : List VirtualMachine) : Option String :=
  match collectVMBlocks vms with
  | none => none
  | some blocks => some (String.intercalate "\n" blocks)

/-- `generateVMwareOutputs`. -/
def generateVMwareOutputs (infra : Infrastructure) : String :=
  "output \"virtual_machines\" \x7b\n  description = \"Information about created virtual machines\"\n  value = \x7b\n" ++
  String.join
    ((infra.virtualMachines.filter fun vm => !vm.config.template).map fun vm =>
      "    \"" ++ vm.name ++ "\" = \x7b\n      id   = vsphere_virtual_machine." ++
        GenerateResourceName vm.name ++ ".id\n      name = vsphere_virtual_machine." ++
        GenerateResourceName vm.name ++ ".name\n      ip   = vsphere_virtual_machine." ++
        GenerateResourceName vm.name ++ ".default_ip_address\n    \x7d\n") ++
  "  \x7d\n\x7d\n"

/-- `generateVMware`: provider, variables, data sources, VM resources (only
when the snapshot has VMs), outputs — in that artifact order. -/
def generateVMware (infra : Infrastructure) (enum : List String → List String) :
    Option (List GenerateResult) :=
  let providerConfig := generateVMwareProvider infra
  let variablesText := generateVMwareVariables infra
  let dataSources := generateVMwareDataSources infra enum
  let outputs := generateVMwareOutputs infra
  if infra.virtualMachines.length > 0 then
    match generateVMwareVMs infra.virtualMachines with
    | none => none
    | some vmsContent =>
        some
          [⟨"provider.tf", providerConfig, providerConfig.length, "provider", "vmware",
              ["vsphere"]⟩,
            ⟨"variables.tf", variablesText, variablesText.length, "variables", "vmware", []⟩,
            ⟨"data.tf", dataSources, dataSources.length, "data", "vmware", []⟩,
            ⟨"virtual_machines.tf", vmsContent, vmsContent.length, "resources", "vmware",
              ["vsphere_virtual_machine"]⟩,
            ⟨"outputs.tf", outputs, outputs.length, "outputs", "vmware", []⟩]
  else
    some
      [⟨"provider.tf", providerConfig, providerConfig.length, "provider", "vmware",
          ["vsphere"]⟩,
        ⟨"variables.tf", variablesText, variablesText.length, "variables", "vmware", []⟩,
        ⟨"data.tf", dataSources, dataSources.length, "data", "vmware", []⟩,
        ⟨"outputs.tf", outputs, outputs.length, "outputs", "vmware", []⟩]

/-- `generateForProvider`: dispatch on the lower-cased provider name;
Proxmox and Nutanix renderers return empty artifact lists; an unknown
provider is an error. -/
def generateForProvider (infra : Infrastructure) (enum : List String → List String) :
    Option (Except String (List GenerateResult)) :=
  if goToLower infra.provider = "vmware" ∨ goToLower infra.provider = "vsphere" then
    match generateVMware infra enum with
    | none => none
    | some rs => some (.ok rs)
  else if goToLower infra.provider = "proxmox" then some (.ok [])
  else if goToLower infra.provider = "nutanix" then some (.ok [])
  else some (.error ("unsupported provider: " ++ infra.provider))

/-- The per-snapshot loop of `TerraformGenerator.Generate`: results
accumulate in snapshot order; the first failure aborts with a wrapped
error. -/
def terraformGenerateLoop (enum : List String → List String) :
    List Infrastructure → Option (Except String (List GenerateResult))
  | [] => some (.ok [])
  | infra :: rest =>
      match generateForProvider infra enum with
      | none => none
      | some (.error e) =>
          some (.error ("failed to generate for provider " ++ infra.provider ++ ": " ++ e))
      | some (.ok rs) =>
          match terraformGenerateLoop enum rest with
          | none => none
          | some (.error e) => some (.error e)
          | some (.ok more) => some (.ok (rs ++ more))

/-- The effect of `writeFile` on a result record: the `Path` field is
rewritten to the joined output path. -/
def rerootResult (dir : String) (r : GenerateResult) : GenerateResult :=
  ⟨goJoin dir r.path, r.content, r.size, r.type, r.provider, r.resources⟩

/-- `TerraformGenerator.Generate`: render all snapshots; unless `DryRun`,
write every artifact (recorded as `(path, content)` pairs) and reroot each
result's `Path` into the output directory. -/
def TerraformGenerate (infras : List Infrastructure) (opts : GenerateOptions)
    (enum : List String → List String) :
    Option (Except String (List GenerateResult × List (String × String))) :=
  match terraformGenerateLoop enum infras with
  | none => none
  | some (.error e) => some (.error e)
  | some (.ok results) =>
      if opts.dryRun then some (.ok (results, []))
      else
        some (.ok (results.map (rerootResult opts.outputDir),
          results.map fun r => (goJoin opts.outputDir r.path, r.content)))

/-! ### Deduplication structure (C1) -/

/-- One step of the Go map-insertion dedup: record a non-empty name the
first time it is seen. -/
def dedupStep (acc : List String) (x : String) : List String :=
  if x ≠ "" ∧ ¬acc.contains x then acc ++ [x] else acc

/-- Generic first-seen collection over a projection. -/
def firstSeenFold {α : Type} (names : α → List String) (items : List α) : List String :=
  items.foldl (fun acc it => (names it).foldl dedupStep acc) []

theorem firstSeenNetworks_eq (vms : List VirtualMachine) :
    firstSeenNetworks vms = firstSeenFold (fun vm => vm.networkCards.map (·.network)) vms := by
  rw [firstSeenNetworks, firstSeenFold]
  apply List.foldl_ext
  intro acc vm _
  rw [List.foldl_map]
  rfl

theorem firstSeenDatastores_eq (vms : List VirtualMachine) :
    firstSeenDatastores vms = firstSeenFold (fun vm => vm.disks.map (·.datastore)) vms := by
  rw [firstSeenDatastores, firstSeenFold]
  apply List.foldl_ext
  intro acc vm _
  rw [List.foldl_map]
  rfl

theorem dedupStep_nodup {acc : List String} (h : acc.Nodup) (x : String) :
    (dedupStep acc x).Nodup := by
  rw [dedupStep]
  by_cases hc : x ≠ "" ∧ ¬acc.contains x
  · rw [if_pos hc]
    rw [List.nodup_append]
    refine ⟨h, List.nodup_singleton x, ?_⟩
    intro a ha hax
    rw [List.mem_singleton] at hax
    subst hax
    exact hc.2 (List.elem_iff.mpr ha)
  · rw [if_neg hc]
    exact h

theorem mem_dedupStep {acc : List String} {x a : String} :
    a ∈ dedupStep acc x ↔ a ∈ acc ∨ (a ≠ "" ∧ a = x) := by
  rw [dedupStep]
  by_cases hc : x ≠ "" ∧ ¬acc.contains x
  · rw [if_pos hc]
    simp only [List.mem_append, List.mem_singleton]
    constructor
    · rintro (h | h)
      · exact Or.inl h
      · exact Or.inr ⟨h ▸ hc.1, h⟩
    · rintro (h | h)
      · exact Or.inl h
      · exact Or.inr h.2
  · rw [if_neg hc]
    constructor
    · exact Or.inl
    · rintro (h | ⟨hne, rfl⟩)
      · exact h
      · rcases Decidable.em (a = "") with he | he
        · exact absurd he hne
        · have : acc.contains a := by
            by_contra hb
            exact hc ⟨hne, hb⟩
          exact List.elem_iff.mp this

theorem foldl_dedupStep_nodup (xs : List String) :
    ∀ acc : List String, acc.Nodup → (xs.foldl dedupStep acc).Nodup := by
  induction xs with
  | nil => intro acc h; exact h
  | cons x t ih =>
      intro acc h
      rw [List.foldl_cons]
      exact ih _ (dedupStep_nodup h x)

theorem mem_foldl_dedupStep (xs : List String) :
    ∀ (acc : List String) (a : String),
      a ∈ xs.foldl dedupStep acc ↔ a ∈ acc ∨ (a ≠ "" ∧ a ∈ xs) := by
  induction xs with
  | nil => intro acc a; simp
  | cons x t ih =>
      intro acc a
      rw [List.foldl_cons, ih, mem_dedupStep]
      constructor
      · rintro ((h | ⟨hne, rfl⟩) | ⟨hne, hm⟩)
        · exact Or.inl h
        · exact Or.inr ⟨hne, List.mem_cons_self _ _⟩
        · exact Or.inr ⟨hne, List.mem_cons_of_mem _ hm⟩
      · rintro (h | ⟨hne, hm⟩)
        · exact Or.inl (Or.inl h)
        · rcases List.mem_cons.mp hm with rfl | hm
          · exact Or.inl (Or.inr ⟨hne, rfl⟩)
          · exact Or.inr ⟨hne, hm⟩

theorem firstSeenFold_nodup {α : Type} (names : α → List String) (items : List α) :
    (firstSeenFold names items).Nodup := by
  rw [firstSeenFold]
  suffices h : ∀ acc : List String, acc.Nodup →
      (items.foldl (fun acc it => (names it).foldl dedupStep acc) acc).Nodup by
    exact h [] List.nodup_nil
  induction items with
  | nil => intro acc h; exact h
  | cons it t ih =>
      intro acc h
      rw [List.foldl_cons]
      exact ih _ (foldl_dedupStep_nodup _ _ h)

theorem mem_firstSeenFold {α : Type} (names : α → List String) (items : List α)
    (a : String) :
    a ∈ firstSeenFold names items ↔ (a ≠ "" ∧ ∃ it ∈ items, a ∈ names it) := by
  rw [firstSeenFold]
  suffices h : ∀ acc : List String,
      (a ∈ items.foldl (fun acc it => (names it).foldl dedupStep acc) acc ↔
        a ∈ acc ∨ (a ≠ "" ∧ ∃ it ∈ items, a ∈ names it)) by
    rw [h []]
    simp
  induction items with
  | nil => intro acc; simp
  | cons it t ih =>
      intro acc
      rw [List.foldl_cons, ih, mem_foldl_dedupStep]
      constructor
      · rintro ((h | ⟨hne, hm⟩) | ⟨hne, x, hx, hm⟩)
        · exact Or.inl h
        · exact Or.inr ⟨hne, it, List.mem_cons_self _ _, hm⟩
        · exact Or.inr ⟨hne, x, List.mem_cons_of_mem _ hx, hm⟩
      · rintro (h | ⟨hne, x, hx, hm⟩)
        · exact Or.inl (Or.inl h)
        · rcases List.mem_cons.mp hx with rfl | hx
          · exact Or.inl (Or.inr ⟨hne, hm⟩)
          · exact Or.inr ⟨hne, x, hx, hm⟩

def isNetworkDecl (d : DataSourceDecl) : Bool :=
  match d.kind with
  | .network => true
  | .datastore => false

def isDatastoreDecl (d : DataSourceDecl) : Bool :=
  match d.kind with
  | .network => false
  | .datastore => true

/-- **C1 (amended).** For every snapshot and every permitted map-enumeration
order: the data artifact contains exactly one declaration per distinct
non-empty network / datastore name referenced by the snapshot's VMs (the
emitted name lists are permutations of the duplicate-free first-seen lists);
each declaration is keyed by the sanitized name; networks precede datastores
but within each group the order is the (unspecified) Go map iteration order,
not necessarily first-seen order; and the data artifact is emitted before
the VM-resources artifact in the artifact list. -/
theorem dataSources_dedup (infra : Infrastructure) (enum : List String → List String)
    (henum : ∀ l : List String, (enum l).Perm l) :
    (((dataSourceDecls infra enum).filter isNetworkDecl).map DataSourceDecl.rawName).Perm
        (firstSeenNetworks infra.virtualMachines) ∧
      (((dataSourceDecls infra enum).filter isDatastoreDecl).map DataSourceDecl.rawName).Perm
        (firstSeenDatastores infra.virtualMachines) ∧
      (firstSeenNetworks infra.virtualMachines).Nodup ∧
      (firstSeenDatastores infra.virtualMachines).Nodup ∧
      (∀ n : String, n ∈ firstSeenNetworks infra.virtualMachines ↔
        (n ≠ "" ∧ ∃ vm ∈ infra.virtualMachines, ∃ nic ∈ vm.networkCards, nic.network = n)) ∧
      (∀ n : String, n ∈ firstSeenDatastores infra.virtualMachines ↔
        (n ≠ "" ∧ ∃ vm ∈ infra.virtualMachines, ∃ dsk ∈ vm.disks, dsk.datastore = n)) ∧
      (∀ d ∈ dataSourceDecls infra enum, d.key = GenerateResourceName d.rawName) ∧
      (∀ rs, generateVMware infra enum = some rs →
        rs.map GenerateResult.path
            = ["provider.tf", "variables.tf", "data.tf", "virtual_machines.tf",
                "outputs.tf"] ∨
          rs.map GenerateResult.path = ["provider.tf", "variables.tf", "data.tf",
            "outputs.tf"]) := by
  have hfilterN :
      ((dataSourceDecls infra enum).filter isNetworkDecl).map DataSourceDecl.rawName
        = enum (firstSeenNetworks infra.virtualMachines) := by
    rw [dataSourceDecls, List.filter_append, List.filter_map, List.filter_map]
    have h1 : (isNetworkDecl ∘ fun n =>
        (⟨DSKind.network, GenerateResourceName n, n⟩ : DataSourceDecl)) = fun _ => true := by
      funext n
      rfl
    have h2 : (isNetworkDecl ∘ fun d =>
        (⟨DSKind.datastore, GenerateResourceName d, d⟩ : DataSourceDecl)) = fun _ => false := by
      funext d
      rfl
    rw [h1, h2, List.filter_true, List.filter_false]
    simp only [List.map_nil, List.append_nil, List.map_map]
    have h3 : (DataSourceDecl.rawName ∘ fun n =>
        (⟨DSKind.network, GenerateResourceName n, n⟩ : DataSourceDecl)) = fun n => n := by
      funext n
      rfl
    rw [h3]
    exact List.map_id _
  have hfilterD :
      ((dataSourceDecls infra enum).filter isDatastoreDecl).map DataSourceDecl.rawName
        = enum (firstSeenDatastores infra.virtualMachines) := by
    rw [dataSourceDecls, List.filter_append, List.filter_map, List.filter_map]
    have h1 : (isDatastoreDecl ∘ fun n =>
        (⟨DSKind.network, GenerateResourceName n, n⟩ : DataSourceDecl)) = fun _ => false := by
      funext n
      rfl
    have h2 : (isDatastoreDecl ∘ fun d =>
        (⟨DSKind.datastore, GenerateResourceName d, d⟩ : DataSourceDecl)) = fun _ => true := by
      funext d
      rfl
    rw [h1, h2, List.filter_true, List.filter_false]
    simp only [List.map_nil, List.nil_append, List.map_map]
    have h3 : (DataSourceDecl.rawName ∘ fun d =>
        (⟨DSKind.datastore, GenerateResourceName d, d⟩ : DataSourceDecl)) = fun d => d := by
      funext d
      rfl
    rw [h3]
    exact List.map_id _
  refine ⟨?_, ?_, ?_, ?_, ?_, ?_, ?_, ?_⟩
  · rw [hfilterN]
    exact henum _
  · rw [hfilterD]
    exact henum _
  · rw [firstSeenNetworks_eq]
    exact firstSeenFold_nodup _ _
  · rw [firstSeenDatastores_eq]
    exact firstSeenFold_nodup _ _
  · intro n
    rw [firstSeenNetworks_eq, mem_firstSeenFold]
    simp
  · intro n
    rw [firstSeenDatastores_eq, mem_firstSeenFold]
    simp
  · intro d hd
    rw [dataSourceDecls] at hd
    rcases List.mem_append.mp hd with h | h <;>
      · rcases List.mem_map.mp h with ⟨n, _, rfl⟩
        rfl
  · intro rs hrs
    rw [generateVMware] at hrs
    by_cases hlen : infra.virtualMachines.length > 0
    · rw [if_pos hlen] at hrs
      cases hv : generateVMwareVMs infra.virtualMachines with
      | none => rw [hv] at hrs; exact absurd hrs (by simp)
      | some vmsContent =>
          rw [hv] at hrs
          left
          cases hrs
          rfl
    · rw [if_neg hlen] at hrs
      right
      cases hrs
      rfl

/-! ### Concrete generator inputs -/

def diskMain : Disk := ⟨"2000", "", 50, "thin", "datastore1", "", "1000", 0⟩

def nicMain : NetworkCard := ⟨"4000", "", "vmxnet3", "VM Network", "", true, true⟩

def nicBackup : NetworkCard := ⟨"4001", "", "vmxnet3", "Backup Net", "", true, true⟩

/-- A non-template VM with one thin disk on `datastore1` and two NICs. -/
def vmWeb : VirtualMachine :=
  ⟨"vm-10", "web-01", "poweredOn", "poweredOn", "", 2, 4096, [diskMain],
    [nicMain, nicBackup], [], "", "", "", ⟨"vmx-19", 2, 1, 4096, "BIOS"⟩,
    ⟨false, "otherGuest64", "", "", ""⟩⟩

/-- A non-template VM with an empty disk list. -/
def vmDiskless : VirtualMachine :=
  ⟨"vm-11", "no-disk", "poweredOn", "poweredOn", "", 1, 1024, [], [nicMain], [], "", "",
    "", ⟨"vmx-19", 1, 1, 1024, "BIOS"⟩, ⟨false, "otherGuest64", "", "", ""⟩⟩

/-- A VMware snapshot whose single VM references two networks. -/
def infraTwoNets : Infrastructure :=
  ⟨"vmware", "vc.example.com", "DC1", "Cluster1", "", [vmWeb], [], [], [], [], []⟩

/-- A VMware snapshot containing a diskless non-template VM. -/
def infraDiskless : Infrastructure :=
  ⟨"vmware", "vc.example.com", "DC1", "Cluster1", "", [vmDiskless], [], [], [], [], []⟩

/-- A VMware snapshot with no VMs. -/
def infraEmptyVMware : Infrastructure :=
  ⟨"vmware", "vc.example.com", "DC1", "", "", [], [], [], [], [], []⟩

set_option maxRecDepth 4000 in
/-- **C1 counterexample.** Go map iteration order is unspecified: reversing
the key list is a permitted enumeration, and under it the declarations do
*not* appear in first-seen order (the generated `data.tf` text differs
accordingly), so "declarations appear in first-seen order" fails. -/
theorem dataSources_firstSeen_cex :
    (List.reverse (firstSeenNetworks infraTwoNets.virtualMachines)).Perm
        (firstSeenNetworks infraTwoNets.virtualMachines) ∧
      (dataSourceDecls infraTwoNets List.reverse).map DataSourceDecl.rawName
        ≠ firstSeenNetworks infraTwoNets.virtualMachines
            ++ firstSeenDatastores infraTwoNets.virtualMachines ∧
      (dataSourceDecls infraTwoNets id).map DataSourceDecl.rawName
        = firstSeenNetworks infraTwoNets.virtualMachines
            ++ firstSeenDatastores infraTwoNets.virtualMachines ∧
      generateVMwareDataSources infraTwoNets List.reverse
        ≠ generateVMwareDataSources infraTwoNets id := by
  refine ⟨by decide, by decide, by decide, by decide⟩

/-- Witness for the amended C1, at the two-network snapshot with the
identity enumeration. -/
theorem dataSources_dedup_witness :
    (((dataSourceDecls infraTwoNets id).filter isNetworkDecl).map
        DataSourceDecl.rawName).Perm (firstSeenNetworks infraTwoNets.virtualMachines) ∧
      (firstSeenNetworks infraTwoNets.virtualMachines).Nodup ∧
      (∀ d ∈ dataSourceDecls infraTwoNets id,
        d.key = GenerateResourceName d.rawName) := by
  have h := dataSources_dedup infraTwoNets id fun l => List.Perm.refl l
  exact ⟨h.1, h.2.2.1, h.2.2.2.2.2.2.1⟩

/-! ### Claim C10: the unguarded `vm.Disks[0]` -/

theorem collectVMBlocks_isSome (vms : List VirtualMachine)
    (h : ∀ vm ∈ vms, vm.config.template = false → vm.disks ≠ []) :
    (collectVMBlocks vms).isSome = true := by
  induction vms with
  | nil => rfl
  | cons vm rest ih =>
      rw [collectVMBlocks]
      by_cases ht : vm.config.template
      · rw [if_pos ht]
        exact ih fun v hv => h v (List.mem_cons_of_mem _ hv)
      · rw [if_neg ht]
        have hne : vm.disks ≠ [] := by
          apply h vm (List.mem_cons_self _ _)
          exact Bool.not_eq_true _ ▸ eq_false_of_ne_true ht
        cases hd : vm.disks with
        | nil => exact absurd hd hne
        | cons d0 ds =>
            rw [vmBlock, hd]
            have hrest := ih fun v hv => h v (List.mem_cons_of_mem _ hv)
            cases hrec : collectVMBlocks rest with
            | none => rw [hrec] at hrest; exact absurd hrest (by simp)
            | some bs => rfl

/-- **C10.** VM rendering indexes `vm.Disks[0]` without a guard: if every
non-template VM has at least one disk the renderer is total, while a
non-template VM with an empty disk list makes VM rendering — and the whole
`Generate` call on such a snapshot — hit an out-of-range index (modelled as
`none`) instead of returning an error. -/
theorem generateVMwareVMs_disk_guard (vms : List VirtualMachine)
    (h : ∀ vm ∈ vms, vm.config.template = false → vm.disks ≠ []) :
    (generateVMwareVMs vms).isSome = true ∧
      generateVMwareVMs [vmDiskless] = none ∧
      TerraformGenerate [infraDiskless] ⟨"", true⟩ id = none := by
  refine ⟨?_, rfl, rfl⟩
  rw [generateVMwareVMs]
  have hs := collectVMBlocks_isSome vms h
  cases hrec : collectVMBlocks vms with
  | none => rw [hrec] at hs; exact absurd hs (by simp)
  | some bs => rfl

/-- Witness for C10 at a one-VM list satisfying the disk precondition. -/
theorem generateVMwareVMs_disk_guard_witness :
    (generateVMwareVMs [vmWeb]).isSome = true ∧
      generateVMwareVMs [vmDiskless] = none :=
  ⟨(generateVMwareVMs_disk_guard [vmWeb] (by decide)).1,
    (generateVMwareVMs_disk_guard [vmWeb] (by decide)).2.1⟩

/-! ### Claim C2: dry-run versus real run -/

def genPaths (x : Option (Except String (List GenerateResult × List (String × String)))) :
    List String :=
  match x with
  | some (.ok p) => p.1.map GenerateResult.path
  | _ => []

def genContents (x : Option (Except String (List GenerateResult × List (String × String)))) :
    List String :=
  match x with
  | some (.ok p) => p.1.map GenerateResult.content
  | _ => []

def genWrites (x : Option (Except String (List GenerateResult × List (String × String)))) :
    List (String × String) :=
  match x with
  | some (.ok p) => p.2
  | _ => []

set_option maxRecDepth 4000 in
/-- **C2 counterexample.** On a snapshot with no VMs and output directory
`"out"`: the dry run and the real run produce byte-identical *contents*, but
not the same artifact lists — `writeFile` rewrites each result's `Path` to
the joined output path, so the real run's paths carry the `out/` prefix. -/
theorem terraformGenerate_dryRun_cex :
    genPaths (TerraformGenerate [infraEmptyVMware] ⟨"out", false⟩ id)
        ≠ genPaths (TerraformGenerate [infraEmptyVMware] ⟨"out", true⟩ id) ∧
      genPaths (TerraformGenerate [infraEmptyVMware] ⟨"out", true⟩ id)
        = ["provider.tf", "variables.tf", "data.tf", "outputs.tf"] ∧
      genPaths (TerraformGenerate [infraEmptyVMware] ⟨"out", false⟩ id)
        = ["out/provider.tf", "out/variables.tf", "out/data.tf", "out/outputs.tf"] ∧
      genContents (TerraformGenerate [infraEmptyVMware] ⟨"out", false⟩ id)
        = genContents (TerraformGenerate [infraEmptyVMware] ⟨"out", true⟩ id) ∧
      genWrites (TerraformGenerate [infraEmptyVMware] ⟨"out", true⟩ id) = [] := by
  refine ⟨by decide, by decide, by decide, by decide, by decide⟩

/-- **C2 (amended).** For every snapshot list, output directory and (shared)
map enumeration: the real run equals the dry run with every artifact's
`Path` rewritten to the joined output path and one write action per
artifact; the content bytes are identical entry for entry, and only the real
run records writes (errors and panics agree exactly). -/
theorem terraformGenerate_dryRun_equiv (infras : List Infrastructure) (dir : String)
    (enum : List String → List String) :
    TerraformGenerate infras ⟨dir, false⟩ enum
        = (TerraformGenerate infras ⟨dir, true⟩ enum).map (Except.map fun p =>
            (p.1.map (rerootResult dir), p.1.map fun r => (goJoin dir r.path, r.content))) ∧
      (∀ rd wd rr wr,
        TerraformGenerate infras ⟨dir, true⟩ enum = some (.ok (rd, wd)) →
        TerraformGenerate infras ⟨dir, false⟩ enum = some (.ok (rr, wr)) →
        rr.map GenerateResult.content = rd.map GenerateResult.content ∧
          rr.map GenerateResult.path = rd.map (fun r => goJoin dir r.path) ∧
          wd = [] ∧
          wr = rd.map fun r => (goJoin dir r.path, r.content)) := by
  cases hloop : terraformGenerateLoop enum infras with
  | none =>
      constructor
      · simp [TerraformGenerate, hloop]
      · intro rd wd rr wr hd hr
        rw [TerraformGenerate, hloop] at hd
        exact absurd hd (by simp)
  | some res =>
      cases res with
      | error e =>
          constructor
          · simp [TerraformGenerate, hloop]
            rfl
          · intro rd wd rr wr hd hr
            rw [TerraformGenerate, hloop] at hd
            exact absurd hd (by simp)
      | ok results =>
          have hd : TerraformGenerate infras ⟨dir, true⟩ enum = some (.ok (results, [])) := by
            simp [TerraformGenerate, hloop]
          have hr : TerraformGenerate infras ⟨dir, false⟩ enum
              = some (.ok (results.map (rerootResult dir),
                  results.map fun r => (goJoin dir r.path, r.content))) := by
            simp [TerraformGenerate, hloop]
          constructor
          · rw [hd, hr]
            rfl
          · intro rd wd rr wr hd2 hr2
            rw [hd] at hd2
            rw [hr] at hr2
            have hrd : rd = results := by
              cases hd2
              rfl
            have hwd : wd = [] := by
              cases hd2
              rfl
            have hrr : rr = results.map (rerootResult dir) := by
              cases hr2
              rfl
            have hwr : wr = results.map fun r => (goJoin dir r.path, r.content) := by
              cases hr2
              rfl
            subst hrd hwd hrr hwr
            refine ⟨?_, ?_, rfl, rfl⟩
            · rw [List.map_map]
              rfl
            · rw [List.map_map]
              rfl

/-- Witness for the amended C2 at the no-VM snapshot. -/
theorem terraformGenerate_dryRun_equiv_witness :
    TerraformGenerate [infraEmptyVMware] ⟨"out", false⟩ id
      = (TerraformGenerate [infraEmptyVMware] ⟨"out", true⟩ id).map (Except.map fun p =>
          (p.1.map (rerootResult "out"),
            p.1.map fun r => (goJoin "out" r.path, r.content))) :=
  (terraformGenerate_dryRun_equiv [infraEmptyVMware] "out" id).1
